import Mathlib

/-!
Shallow embedding of the moltbook TUI application state machine.

The embedding follows `src/app.rs` (the `App` state and its transition
methods) and the `SubmoltsLoaded` event handler of `src/main.rs`.
`HashSet<String>` fields are modelled as `List String` with
membership-respecting insert/remove; `usize` becomes `Nat`, `i64`
becomes `Int`.  `std::time::Instant` carries no observable structure
here and is modelled by the one-point type `Instant`.
-/

namespace Moltbook

/-- api::SortOrder (src/api/models.rs). -/
inductive SortOrder where
  | New
  | Top
  | Discussed
  | Random
deriving DecidableEq

/-- api::TimeFilter (src/api/models.rs). -/
inductive TimeFilter where
  | Hour
  | Day
  | Week
  | Month
  | Year
  | All
deriving DecidableEq

/-- Screen enum (src/app.rs). -/
inductive Screen where
  | Setup
  | Feed
  | PostDetail
  | Stats
  | Leaderboard
  | TopPairings
  | RecentAgents
  | Submolts
  | Settings
  | AgentProfile
deriving DecidableEq

/-- config::RowDisplay (src/config.rs); `Normal` is the default. -/
inductive RowDisplay where
  | Compact
  | Normal
  | Comfortable
deriving DecidableEq

/-- api::Agent. -/
structure Agent where
  id : String
  name : String
deriving DecidableEq

/-- api::Submolt. -/
structure Submolt where
  id : Option String
  name : String
  display_name : Option String
deriving DecidableEq

/-- api::SubmoltCreator. -/
structure SubmoltCreator where
  id : String
  name : String
deriving DecidableEq

/-- api::SubmoltFull. -/
structure SubmoltFull where
  id : String
  name : String
  display_name : String
  description : Option String
  subscriber_count : Int
  created_at : String
  last_activity_at : Option String
  featured_at : Option String
  created_by : Option SubmoltCreator
deriving DecidableEq

/-- api::Stats. -/
structure Stats where
  agents : Nat
  submolts : Nat
  posts : Nat
  comments : Nat
deriving DecidableEq

/-- api::AgentOwner. -/
structure AgentOwner where
  x_handle : Option String
  x_verified : Option Bool
deriving DecidableEq

/-- api::LeaderboardAgent. -/
structure LeaderboardAgent where
  id : String
  name : String
  karma : Int
  is_claimed : Bool
  avatar_url : Option String
  rank : Nat
  owner : Option AgentOwner
deriving DecidableEq

/-- api::AgentOwnerFull. -/
structure AgentOwnerFull where
  x_handle : Option String
  x_name : Option String
  x_follower_count : Option Int
deriving DecidableEq

/-- api::RecentAgent. -/
structure RecentAgent where
  id : String
  name : String
  description : Option String
  karma : Int
  follower_count : Int
  created_at : String
  is_claimed : Bool
  owner : Option AgentOwnerFull
deriving DecidableEq

/-- api::AgentProfile. -/
structure AgentProfile where
  id : String
  name : String
  description : Option String
  karma : Int
  follower_count : Int
  following_count : Int
  post_count : Option Int
  created_at : String
  is_claimed : Bool
  owner : Option AgentOwnerFull
deriving DecidableEq

/-- api::TopHuman. -/
structure TopHuman where
  id : String
  x_id : String
  x_handle : String
  x_name : String
  x_avatar : Option String
  x_follower_count : Int
  x_verified : Bool
  bot_count : Int
  bot_name : String
  rank : Nat
deriving DecidableEq

/-- api::Post. -/
structure Post where
  id : String
  title : String
  content : Option String
  url : Option String
  upvotes : Int
  downvotes : Int
  comment_count : Int
  created_at : String
  author : Option Agent
  submolt : Option Submolt
deriving DecidableEq

/-- api::Comment: a comment with its nested reply forest. -/
inductive Comment where
  | mk (id : String) (content : String) (upvotes : Int) (downvotes : Int)
       (depth : Int) (created_at : String) (author : Option Agent)
       (replies : List Comment)

/-- The id field of a Comment. -/
def Comment.id : Comment → String
  | .mk i _ _ _ _ _ _ _ => i

/-- The replies field of a Comment. -/
def Comment.replies : Comment → List Comment
  | .mk _ _ _ _ _ _ _ r => r

/-- std::time::Instant, modelled as a one-point type: the claims under
study never observe the clock value. -/
def Instant : Type := Unit

/-- The value `Instant::now()` is modelled by. -/
def instantNow : Instant := ()

/-- HashSet::insert on the list model: add the element unless present. -/
def setInsert (l : List String) (x : String) : List String :=
  if l.contains x then l else x :: l

/-- HashSet::remove on the list model: drop every occurrence. -/
def setRemove (l : List String) (x : String) : List String :=
  l.filter (fun y => y != x)

/-- The App state (src/app.rs, struct App).  `last_refresh` keeps the
source's `Option<Instant>` shape via the one-point `Instant` type. -/
structure App where
  screen : Screen
  posts : List Post
  selected_index : Nat
  sort_order : SortOrder
  time_filter : TimeFilter
  current_post : Option Post
  comments : List Comment
  comment_scroll : Nat
  selected_comment_index : Nat
  collapsed_comments : List String
  seen_post_ids : List String
  new_post_ids : List String
  last_refresh : Option Instant
  is_loading : Bool
  is_background_loading : Bool
  error_message : Option String
  show_technical_error : Bool
  should_quit : Bool
  show_help : Bool
  current_page : Nat
  has_more_posts : Bool
  spinner_frame : Nat
  refresh_interval_secs : Nat
  stats : Option Stats
  leaderboard : List LeaderboardAgent
  top_pairings : List TopHuman
  recent_agents : List RecentAgent
  submolts : List SubmoltFull
  leaderboard_selected : Nat
  top_pairings_selected : Nat
  recent_selected : Nat
  submolts_selected : Nat
  submolts_scroll_row : Nat
  api_key_input : String
  setup_error : Option String
  debug_mode : Bool
  debug_log : List String
  select_bottom_on_load : Bool
  settings_selected : Nat
  row_display : RowDisplay
  show_submolt_detail : Bool
  current_submolt : Option SubmoltFull
  agent_profile : Option AgentProfile
  agent_posts : List Post
  agent_posts_selected : Nat
  show_agent_preview : Bool
  preview_agent_name : Option String
  previous_screen : Option Screen
  is_preview_loading : Bool
  show_about : Bool
  last_frame_area : Option (Nat × Nat)

namespace App

/-- App::new (src/app.rs). -/
def new : App where
  screen := Screen.Feed
  posts := []
  selected_index := 0
  sort_order := SortOrder.New
  time_filter := TimeFilter.Day
  current_post := none
  comments := []
  comment_scroll := 0
  selected_comment_index := 0
  collapsed_comments := []
  seen_post_ids := []
  new_post_ids := []
  last_refresh := none
  is_loading := false
  is_background_loading := false
  error_message := none
  show_technical_error := false
  should_quit := false
  show_help := false
  current_page := 0
  has_more_posts := false
  spinner_frame := 0
  refresh_interval_secs := 0
  stats := none
  leaderboard := []
  top_pairings := []
  recent_agents := []
  submolts := []
  leaderboard_selected := 0
  top_pairings_selected := 0
  recent_selected := 0
  submolts_selected := 0
  submolts_scroll_row := 0
  api_key_input := ""
  setup_error := none
  debug_mode := false
  debug_log := []
  select_bottom_on_load := false
  settings_selected := 0
  row_display := RowDisplay.Normal
  show_submolt_detail := false
  current_submolt := none
  agent_profile := none
  agent_posts := []
  agent_posts_selected := 0
  show_agent_preview := false
  preview_agent_name := none
  previous_screen := none
  is_preview_loading := false
  show_about := false
  last_frame_area := none

/-- App::next_page (src/app.rs). -/
def nextPage (s : App) : App :=
  if s.has_more_posts then
    { s with current_page := s.current_page + 1, selected_index := 0 }
  else s

/-- App::prev_page (src/app.rs). -/
def prevPage (s : App) : App :=
  if 0 < s.current_page then
    { s with current_page := s.current_page - 1, select_bottom_on_load := true }
  else s

mutual

/-- One step of the inner `collect_visible` helper of
App::get_visible_comment_ids: push the comment's id, then, unless the
id is collapsed, the ids of its reply forest. -/
def collectVisibleOne (collapsed : List String) : Comment → List String
  | .mk i _ _ _ _ _ _ replies =>
      i :: (if collapsed.contains i then [] else collectVisibleList collapsed replies)

/-- `collect_visible` over a comment slice (src/app.rs,
App::get_visible_comment_ids). -/
def collectVisibleList (collapsed : List String) : List Comment → List String
  | [] => []
  | c :: rest => collectVisibleOne collapsed c ++ collectVisibleList collapsed rest

end

/-- App::get_visible_comment_ids (src/app.rs). -/
def getVisibleCommentIds (s : App) : List String :=
  collectVisibleList s.collapsed_comments s.comments

/-- App::get_selected_comment_id (src/app.rs):
`visible_ids.get(self.selected_comment_index).cloned()`. -/
def getSelectedCommentId (s : App) : Option String :=
  (getVisibleCommentIds s).get? s.selected_comment_index

/-- App::select_next (src/app.rs).  In the Feed/PostDetail/list arms the
Rust `len() - 1` is guarded by a non-emptiness test, so truncated `Nat`
subtraction agrees with `usize` arithmetic. -/
def selectNext (s : App) : App :=
  match s.screen with
  | Screen.Feed =>
      if s.posts ≠ [] ∧ s.selected_index < s.posts.length - 1 then
        { s with selected_index := s.selected_index + 1 }
      else s
  | Screen.PostDetail =>
      if 0 < (getVisibleCommentIds s).length ∧
          s.selected_comment_index < (getVisibleCommentIds s).length - 1 then
        { s with selected_comment_index := s.selected_comment_index + 1 }
      else s
  | Screen.Setup => s
  | Screen.Stats => s
  | Screen.Leaderboard =>
      if s.leaderboard ≠ [] ∧ s.leaderboard_selected < s.leaderboard.length - 1 then
        { s with leaderboard_selected := s.leaderboard_selected + 1 }
      else s
  | Screen.TopPairings =>
      if s.top_pairings ≠ [] ∧ s.top_pairings_selected < s.top_pairings.length - 1 then
        { s with top_pairings_selected := s.top_pairings_selected + 1 }
      else s
  | Screen.RecentAgents =>
      if s.recent_agents ≠ [] ∧ s.recent_selected < s.recent_agents.length - 1 then
        { s with recent_selected := s.recent_selected + 1 }
      else s
  | Screen.Submolts =>
      if s.submolts ≠ [] ∧ s.submolts_selected + 4 < s.submolts.length then
        { s with submolts_selected := s.submolts_selected + 4 }
      else s
  | Screen.Settings =>
      if s.settings_selected < 1 then
        { s with settings_selected := s.settings_selected + 1 }
      else s
  | Screen.AgentProfile =>
      if s.agent_posts ≠ [] ∧ s.agent_posts_selected < s.agent_posts.length - 1 then
        { s with agent_posts_selected := s.agent_posts_selected + 1 }
      else s

/-- App::select_previous (src/app.rs). -/
def selectPrevious (s : App) : App :=
  match s.screen with
  | Screen.Feed =>
      if 0 < s.selected_index then
        { s with selected_index := s.selected_index - 1 }
      else s
  | Screen.PostDetail =>
      if 0 < s.selected_comment_index then
        { s with selected_comment_index := s.selected_comment_index - 1 }
      else s
  | Screen.Setup => s
  | Screen.Stats => s
  | Screen.Leaderboard =>
      if 0 < s.leaderboard_selected then
        { s with leaderboard_selected := s.leaderboard_selected - 1 }
      else s
  | Screen.TopPairings =>
      if 0 < s.top_pairings_selected then
        { s with top_pairings_selected := s.top_pairings_selected - 1 }
      else s
  | Screen.RecentAgents =>
      if 0 < s.recent_selected then
        { s with recent_selected := s.recent_selected - 1 }
      else s
  | Screen.Submolts =>
      if 4 ≤ s.submolts_selected then
        { s with submolts_selected := s.submolts_selected - 4 }
      else s
  | Screen.Settings =>
      if 0 < s.settings_selected then
        { s with settings_selected := s.settings_selected - 1 }
      else s
  | Screen.AgentProfile =>
      if 0 < s.agent_posts_selected then
        { s with agent_posts_selected := s.agent_posts_selected - 1 }
      else s

/-- App::select_left (src/app.rs). -/
def selectLeft (s : App) : App :=
  if s.screen = Screen.Submolts then
    if 0 < s.submolts_selected % 4 then
      { s with submolts_selected := s.submolts_selected - 1 }
    else s
  else s

/-- App::select_right (src/app.rs). -/
def selectRight (s : App) : App :=
  if s.screen = Screen.Submolts then
    if s.submolts_selected % 4 < 3 ∧ s.submolts_selected + 1 < s.submolts.length then
      { s with submolts_selected := s.submolts_selected + 1 }
    else s
  else s

/-- App::set_sort_order (src/app.rs). -/
def setSortOrder (s : App) (order : SortOrder) : App :=
  let s := { s with sort_order := order }
  if order ≠ SortOrder.New ∧ s.time_filter = TimeFilter.Hour then
    { s with time_filter := TimeFilter.Day }
  else s

/-- App::open_selected_post (src/app.rs): `self.posts.get(self.selected_index)`
is `List.get?` on the model. -/
def openSelectedPost (s : App) : App :=
  match s.posts.get? s.selected_index with
  | some post =>
      { s with
        new_post_ids := setRemove s.new_post_ids post.id
        seen_post_ids := setInsert s.seen_post_ids post.id
        current_post := some post
        comments := []
        comment_scroll := 0
        screen := Screen.PostDetail }
  | none => s

/-- App::go_back (src/app.rs). -/
def goBack (s : App) : App :=
  match s.screen with
  | Screen.PostDetail =>
      if s.previous_screen = some Screen.AgentProfile then
        { s with
          screen := Screen.AgentProfile
          current_post := none
          comments := []
          comment_scroll := 0
          selected_comment_index := 0
          collapsed_comments := []
          previous_screen := none }
      else
        { s with
          screen := Screen.Feed
          current_post := none
          comments := []
          comment_scroll := 0
          selected_comment_index := 0
          collapsed_comments := [] }
  | Screen.Setup =>
      { s with should_quit := true }
  | Screen.Feed =>
      if s.current_submolt.isSome then
        { s with current_submolt := none }
      else
        { s with should_quit := true }
  | Screen.AgentProfile =>
      match s.previous_screen with
      | some prev =>
          { s with
            screen := prev
            previous_screen := none
            agent_profile := none
            agent_posts := []
            agent_posts_selected := 0 }
      | none =>
          { s with
            screen := Screen.Leaderboard
            previous_screen := none
            agent_profile := none
            agent_posts := []
            agent_posts_selected := 0 }
  | Screen.Stats => { s with screen := Screen.Feed }
  | Screen.Leaderboard => { s with screen := Screen.Feed }
  | Screen.TopPairings => { s with screen := Screen.Feed }
  | Screen.RecentAgents => { s with screen := Screen.Feed }
  | Screen.Submolts => { s with screen := Screen.Feed }
  | Screen.Settings => { s with screen := Screen.Feed }

/-- App::update_posts (src/app.rs).  The `for` loop over the fetched
posts that fills `new_post_ids` is a left fold; `current_ids` is the
set of ids of the posts held before the call. -/
def updatePosts (s : App) (posts : List Post) : App :=
  let currentIds := s.posts.map Post.id
  let newIds := posts.foldl
    (fun acc p =>
      if ¬ currentIds.contains p.id ∧ ¬ s.seen_post_ids.contains p.id then
        setInsert acc p.id
      else acc)
    s.new_post_ids
  let s' : App := { s with
    new_post_ids := newIds
    posts := posts
    last_refresh := some instantNow }
  if s'.select_bottom_on_load = true ∧ s'.posts ≠ [] then
    { s' with
      selected_index := s'.posts.length - 1
      select_bottom_on_load := false }
  else if s'.posts.length ≤ s'.selected_index ∧ s'.posts ≠ [] then
    { s' with selected_index := s'.posts.length - 1 }
  else s'

/-- App::selected_post (src/app.rs). -/
def selectedPost (s : App) : Option Post :=
  s.posts.get? s.selected_index

end App

/-- Comparator passed to `submolts.sort_by` in the `SubmoltsLoaded`
handler (src/main.rs): featured entries first, then descending
subscriber count. -/
def submoltOrder (a b : SubmoltFull) : Ordering :=
  match a.featured_at, b.featured_at with
  | some _, none => Ordering.lt
  | none, some _ => Ordering.gt
  | _, _ => compare b.subscriber_count a.subscriber_count

/-- Whether the comparator of `submoltOrder` treats a submolt as
featured: `featured_at` is present. -/
def isFeatured (a : SubmoltFull) : Bool :=
  a.featured_at.isSome

/-- The weak order induced by the `sort_by` comparator: `a` may come
before `b`. -/
def submoltLe (a b : SubmoltFull) : Bool :=
  decide (submoltOrder a b ≠ Ordering.gt)

/-- The `SubmoltsLoaded` handler's sort (src/main.rs): Rust's
`sort_by` is a stable sort by the comparator, modelled by `mergeSort`
on the weak order induced by the comparator. -/
def sortSubmolts (l : List SubmoltFull) : List SubmoltFull :=
  l.mergeSort submoltLe

mutual

/-- Spec-side description of comment visibility, written from the
spec's words for one node: a node's id is emitted, and its children's
subtrees follow exactly when the node's id is not in the collapsed
set. -/
def visibleSpecOne (collapsed : List String) : Comment → List String
  | .mk i _ _ _ _ _ _ replies =>
      i :: (if i ∈ collapsed then [] else visibleSpecList collapsed replies)

/-- Spec-side description of comment visibility for a forest: the
pre-order traversal over the roots. -/
def visibleSpecList (collapsed : List String) : List Comment → List String
  | [] => []
  | c :: rest => visibleSpecOne collapsed c ++ visibleSpecList collapsed rest

end

mutual

theorem collectVisibleOne_eq_spec (collapsed : List String) :
    ∀ c, App.collectVisibleOne collapsed c = visibleSpecOne collapsed c
  | .mk i _ _ _ _ _ _ replies => by
      simp only [App.collectVisibleOne, visibleSpecOne,
        collectVisibleList_eq_spec collapsed replies]
      by_cases h : i ∈ collapsed <;> simp [h]

theorem collectVisibleList_eq_spec (collapsed : List String) :
    ∀ cs, App.collectVisibleList collapsed cs = visibleSpecList collapsed cs
  | [] => rfl
  | c :: rest => by
      simp only [App.collectVisibleList, visibleSpecList,
        collectVisibleOne_eq_spec collapsed c,
        collectVisibleList_eq_spec collapsed rest]

end

/-- The comment `A1` of the spec's flattening example. -/
def exC_A1 : Comment := .mk "A1" "" 0 0 1 "" none []

/-- The comment `A` of the spec's flattening example, with reply `A1`. -/
def exC_A : Comment := .mk "A" "" 0 0 0 "" none [exC_A1]

/-- The comment `B` of the spec's flattening example, no replies. -/
def exC_B : Comment := .mk "B" "" 0 0 0 "" none []

/-- C2: for every forest of comments and every collapsed-id set,
`get_visible_comment_ids` is exactly the pre-order depth-first
traversal in which every visited node's id is emitted and a node's
children's subtrees are emitted iff the node's id is not collapsed;
with roots `[A(collapsed, replies=[A1]), B]` it yields `[A, B]`, and
with `A` not collapsed it yields `[A, A1, B]`. -/
theorem c2_visible_comment_ids :
    (∀ s : App, App.getVisibleCommentIds s = visibleSpecList s.collapsed_comments s.comments)
    ∧ App.getVisibleCommentIds
        { App.new with comments := [exC_A, exC_B], collapsed_comments := ["A"] } = ["A", "B"]
    ∧ App.getVisibleCommentIds
        { App.new with comments := [exC_A, exC_B] } = ["A", "A1", "B"] :=
  ⟨fun s => collectVisibleList_eq_spec s.collapsed_comments s.comments,
   by decide, by decide⟩

/-- C9: `get_selected_comment_id` returns the element of the visible
id list at `selected_comment_index` when that index is in range and
`none` when it is out of range; it never modifies the index (it is a
pure read of the state). -/
theorem c9_selected_comment_id :
    ∀ s : App,
      (∀ h : s.selected_comment_index < (App.getVisibleCommentIds s).length,
          App.getSelectedCommentId s =
            some ((App.getVisibleCommentIds s).get ⟨s.selected_comment_index, h⟩))
      ∧ ((App.getVisibleCommentIds s).length ≤ s.selected_comment_index →
          App.getSelectedCommentId s = none) := by
  intro s
  constructor
  · intro h
    exact List.get?_eq_get h
  · intro h
    exact List.get?_eq_none.mpr h

/-- A state on PostDetail with three visible comments and the middle
one selected, plus a variant whose selection index is past the end. -/
def c9State : App :=
  { App.new with
    screen := Screen.PostDetail
    comments := [exC_A, exC_B]
    selected_comment_index := 1 }

/-- Witness for C9 at concrete states: index 1 of `[A, A1, B]` is
`A1`, and index 5 is out of range. -/
theorem c9_selected_comment_id_witness :
    App.getSelectedCommentId c9State = some "A1"
    ∧ App.getSelectedCommentId { c9State with selected_comment_index := 5 } = none :=
  ⟨(c9_selected_comment_id c9State).1 (by decide),
   (c9_selected_comment_id { c9State with selected_comment_index := 5 }).2 (by decide)⟩

/-- A post carrying only its id; the remaining fields are defaults. -/
def mkPost (i : String) : Post :=
  { id := i, title := i, content := none, url := none, upvotes := 0,
    downvotes := 0, comment_count := 0, created_at := "", author := none,
    submolt := none }

/-- C3 counterexample state: a post exists at the selected Feed index,
and the comment selection index is 3. -/
def c3State : App :=
  { App.new with posts := [mkPost "A"], selected_comment_index := 3 }

/-- C3 counterexample: `open_selected_post` does not reset
`selected_comment_index` — it stays 3 even though a post exists at the
selected index, contradicting the claim that the comment selection
index is reset. -/
theorem c3_open_selected_post_counterexample :
    c3State.posts.get? c3State.selected_index = some (mkPost "A")
    ∧ ¬ (App.openSelectedPost c3State).selected_comment_index = 0 := by
  decide

/-- C3 (amended): when a post exists at the selected Feed index,
`open_selected_post` sets `current_post` to it, clears the comments
list, resets the comment scroll (leaving the comment selection index
untouched), removes the post's id from `new_post_ids`, inserts it into
`seen_post_ids`, and moves to PostDetail; otherwise the state is
unchanged. -/
theorem c3_open_selected_post :
    ∀ s : App,
      (∀ p, s.posts.get? s.selected_index = some p →
          App.openSelectedPost s =
            { s with
              new_post_ids := setRemove s.new_post_ids p.id
              seen_post_ids := setInsert s.seen_post_ids p.id
              current_post := some p
              comments := []
              comment_scroll := 0
              screen := Screen.PostDetail })
      ∧ (s.posts.get? s.selected_index = none → App.openSelectedPost s = s)
      ∧ (App.openSelectedPost s).selected_comment_index = s.selected_comment_index := by
  intro s
  refine ⟨fun p hp => ?_, fun hn => ?_, ?_⟩
  · rw [List.get?_eq_getElem?] at hp
    simp [App.openSelectedPost, hp]
  · rw [List.get?_eq_getElem?] at hn
    simp [App.openSelectedPost, hn]
  · unfold App.openSelectedPost
    rcases s.posts.get? s.selected_index <;> rfl

/-- Witness for C3 at a concrete state: opening the sole post of the
feed marks it seen and lands on PostDetail. -/
theorem c3_open_selected_post_witness :
    App.openSelectedPost { App.new with posts := [mkPost "A"] } =
      { App.new with
        posts := [mkPost "A"]
        new_post_ids := setRemove App.new.new_post_ids (mkPost "A").id
        seen_post_ids := setInsert App.new.seen_post_ids (mkPost "A").id
        current_post := some (mkPost "A")
        comments := []
        comment_scroll := 0
        screen := Screen.PostDetail } :=
  (c3_open_selected_post { App.new with posts := [mkPost "A"] }).1 (mkPost "A") rfl

/-- C4: `go_back` is the screen-dependent inverse transition described
by the spec: PostDetail returns to AgentProfile exactly when that was
the recorded previous screen and otherwise to Feed, clearing the post
and comment state either way; Feed clears an active submolt filter if
set and otherwise requests quit; Setup requests quit; AgentProfile
returns to the recorded previous screen, defaulting to Leaderboard;
every other screen returns to Feed. -/
theorem c4_go_back :
    ∀ s : App,
      (s.screen = Screen.PostDetail →
          (App.goBack s).screen =
            (if s.previous_screen = some Screen.AgentProfile then Screen.AgentProfile
             else Screen.Feed)
          ∧ (App.goBack s).current_post = none
          ∧ (App.goBack s).comments = []
          ∧ (App.goBack s).comment_scroll = 0
          ∧ (App.goBack s).selected_comment_index = 0
          ∧ (App.goBack s).collapsed_comments = [])
      ∧ (s.screen = Screen.Feed →
          (s.current_submolt.isSome = true →
              App.goBack s = { s with current_submolt := none })
          ∧ (s.current_submolt = none →
              App.goBack s = { s with should_quit := true }))
      ∧ (s.screen = Screen.Setup → App.goBack s = { s with should_quit := true })
      ∧ (s.screen = Screen.AgentProfile →
          (App.goBack s).screen = s.previous_screen.getD Screen.Leaderboard)
      ∧ ((s.screen = Screen.Stats ∨ s.screen = Screen.Leaderboard
          ∨ s.screen = Screen.TopPairings ∨ s.screen = Screen.RecentAgents
          ∨ s.screen = Screen.Submolts ∨ s.screen = Screen.Settings) →
          (App.goBack s).screen = Screen.Feed) := by
  intro s
  refine ⟨fun h => ?_, fun h => ⟨fun hsub => ?_, fun hsub => ?_⟩, fun h => ?_,
    fun h => ?_, fun h => ?_⟩
  · by_cases hp : s.previous_screen = some Screen.AgentProfile <;>
      simp [App.goBack, h, hp]
  · simp [App.goBack, h, hsub]
  · simp [App.goBack, h, hsub]
  · simp [App.goBack, h]
  · rcases hp : s.previous_screen with _ | prev <;> simp [App.goBack, h, hp]
  · rcases h with h | h | h | h | h | h <;> simp [App.goBack, h]

/-- Witness for C4 at the initial state: on Feed with no submolt
filter, `go_back` requests quit. -/
theorem c4_go_back_witness :
    App.goBack App.new = { App.new with should_quit := true } :=
  ((c4_go_back App.new).2.1 rfl).2 rfl

/-- C8 counterexample state: sort order is already Top (not New) and
the time filter is Hour. -/
def c8State : App :=
  { App.new with sort_order := SortOrder.Top, time_filter := TimeFilter.Hour }

/-- C8 counterexample: switching between two non-New orders while the
time filter is Hour still changes the time filter to Day, contradicting
the claim that the filter changes only when leaving New. -/
theorem c8_set_sort_order_counterexample :
    c8State.sort_order ≠ SortOrder.New
    ∧ (App.setSortOrder c8State SortOrder.Discussed).time_filter ≠ c8State.time_filter := by
  decide

/-- C8 (amended): `set_sort_order(order)` sets `sort_order` to `order`
and changes `time_filter` exactly when the new order is not New while
`time_filter` is Hour — regardless of the previous sort order — in
which case it becomes Day; switching to New, or any call with a
non-Hour filter, leaves `time_filter` unchanged. -/
theorem c8_set_sort_order :
    ∀ (s : App) (order : SortOrder),
      (App.setSortOrder s order).sort_order = order
      ∧ (order ≠ SortOrder.New → s.time_filter = TimeFilter.Hour →
          (App.setSortOrder s order).time_filter = TimeFilter.Day)
      ∧ ((order = SortOrder.New ∨ s.time_filter ≠ TimeFilter.Hour) →
          (App.setSortOrder s order).time_filter = s.time_filter) := by
  intro s order
  refine ⟨?_, fun h1 h2 => ?_, fun h => ?_⟩
  · by_cases h1 : order = SortOrder.New <;>
      by_cases h2 : s.time_filter = TimeFilter.Hour <;>
      simp [App.setSortOrder, h1, h2]
  · simp [App.setSortOrder, h1, h2]
  · rcases h with h | h <;> simp [App.setSortOrder, h]

/-- Witness for C8 at a concrete state: leaving New for Top while the
filter is Hour forces the filter to Day, and switching to New leaves
the filter alone. -/
theorem c8_set_sort_order_witness :
    (App.setSortOrder { App.new with time_filter := TimeFilter.Hour } SortOrder.Top).time_filter
        = TimeFilter.Day
    ∧ (App.setSortOrder c8State SortOrder.New).time_filter = c8State.time_filter :=
  ⟨(c8_set_sort_order { App.new with time_filter := TimeFilter.Hour } SortOrder.Top).2.1
      (by decide) rfl,
   (c8_set_sort_order c8State SortOrder.New).2.2 (Or.inl rfl)⟩

/-- A submolt carrying only a name, subscriber count and featured
flag; the remaining fields are defaults. -/
def mkSubmolt (i : String) (subs : Int) (featured : Option String) : SubmoltFull :=
  { id := i, name := i, display_name := i, description := none,
    subscriber_count := subs, created_at := "", last_activity_at := none,
    featured_at := featured, created_by := none }

/-- C7 counterexample state: the Submolts grid holds one entry but the
grid cursor is 10, far past the end. -/
def c7State : App :=
  { App.new with
    screen := Screen.Submolts
    submolts := [mkSubmolt "m" 0 none]
    submolts_selected := 10 }

/-- C7 counterexample: with one submolt and cursor 10, `select_previous`
moves the cursor to 6 even though 6 is outside `[0, 1)`, contradicting
the claim that the move is a no-op whenever the moved index would fall
outside `[0, len)`. -/
theorem c7_grid_counterexample :
    ¬ (c7State.submolts_selected - 4 < c7State.submolts.length)
    ∧ (App.selectPrevious c7State).submolts_selected ≠ c7State.submolts_selected := by
  decide

/-- C7 (amended): on the Submolts grid screen, `select_left` is a no-op
exactly when `index % 4 = 0` and otherwise decrements; `select_right`
is a no-op exactly when `index % 4 = 3` or `index + 1 ≥ len` and
otherwise increments; `select_next` moves down by exactly 4 when
`index + 4 < len` and is a no-op otherwise; `select_previous` moves up
by exactly 4 exactly when `index ≥ 4` and is a no-op when `index < 4`
— it does not check the upper bound, which coincides with the claim
only for cursors already inside `[0, len)`. -/
theorem c7_grid_navigation :
    ∀ s : App, s.screen = Screen.Submolts →
      (s.submolts_selected % 4 = 0 → App.selectLeft s = s)
      ∧ (s.submolts_selected % 4 ≠ 0 →
          App.selectLeft s = { s with submolts_selected := s.submolts_selected - 1 })
      ∧ ((s.submolts_selected % 4 = 3 ∨ s.submolts.length ≤ s.submolts_selected + 1) →
          App.selectRight s = s)
      ∧ (s.submolts_selected % 4 ≠ 3 → s.submolts_selected + 1 < s.submolts.length →
          App.selectRight s = { s with submolts_selected := s.submolts_selected + 1 })
      ∧ (s.submolts_selected + 4 < s.submolts.length →
          App.selectNext s = { s with submolts_selected := s.submolts_selected + 4 })
      ∧ (s.submolts.length ≤ s.submolts_selected + 4 → App.selectNext s = s)
      ∧ (4 ≤ s.submolts_selected →
          App.selectPrevious s = { s with submolts_selected := s.submolts_selected - 4 })
      ∧ (s.submolts_selected < 4 → App.selectPrevious s = s) := by
  intro s hs
  refine ⟨fun h => ?_, fun h => ?_, fun h => ?_, fun h h' => ?_, fun h => ?_,
    fun h => ?_, fun h => ?_, fun h => ?_⟩
  · simp [App.selectLeft, hs, h]
  · simp [App.selectLeft, hs, Nat.pos_of_ne_zero h]
  · rcases h with h | h
    · simp [App.selectRight, hs, h]
    · have : ¬ (s.submolts_selected % 4 < 3 ∧ s.submolts_selected + 1 < s.submolts.length) := by
        omega
      simp [App.selectRight, hs, this]
  · have hlt : s.submolts_selected % 4 < 3 := by omega
    simp [App.selectRight, hs, hlt, h']
  · have hne : s.submolts ≠ [] := by
      intro hnil
      rw [hnil] at h
      simp at h
    simp [App.selectNext, hs, hne, h]
  · have : ¬ (s.submolts ≠ [] ∧ s.submolts_selected + 4 < s.submolts.length) := by
      intro hc
      omega
    simp [App.selectNext, hs, this]
  · simp [App.selectPrevious, hs, h]
  · have : ¬ (4 ≤ s.submolts_selected) := by omega
    simp [App.selectPrevious, hs, this]

/-- A Submolts grid of six entries with the cursor at 1 (row 0,
column 1). -/
def c7WitnessState : App :=
  { App.new with
    screen := Screen.Submolts
    submolts := [mkSubmolt "a" 0 none, mkSubmolt "b" 0 none, mkSubmolt "c" 0 none,
                 mkSubmolt "d" 0 none, mkSubmolt "e" 0 none, mkSubmolt "f" 0 none]
    submolts_selected := 1 }

/-- Witness for C7 at a concrete state: with six submolts and the
cursor at 1 (row 0, column 1), moving right goes to 2 and moving down
goes to 5. -/
theorem c7_grid_navigation_witness :
    App.selectRight c7WitnessState =
      { c7WitnessState with submolts_selected := c7WitnessState.submolts_selected + 1 }
    ∧ App.selectNext c7WitnessState =
      { c7WitnessState with submolts_selected := c7WitnessState.submolts_selected + 4 } :=
  ⟨(c7_grid_navigation c7WitnessState rfl).2.2.2.1 (by decide) (by decide),
   (c7_grid_navigation c7WitnessState rfl).2.2.2.2.1 (by decide)⟩

/-- C6: `prev_page` pages backward and arms the select-bottom flag
exactly when the current page is positive; the next `update_posts`
with a non-empty list selects the last index and clears the flag; with
the flag clear, `update_posts` never selects the bottom and only clamps
an out-of-range selection to the last index. -/
theorem c6_prev_page_select_bottom :
    ∀ (s : App) (posts : List Post),
      (0 < s.current_page →
          App.prevPage s =
            { s with current_page := s.current_page - 1, select_bottom_on_load := true })
      ∧ (s.current_page = 0 → App.prevPage s = s)
      ∧ (s.select_bottom_on_load = true → posts ≠ [] →
          (App.updatePosts s posts).selected_index = posts.length - 1
          ∧ (App.updatePosts s posts).select_bottom_on_load = false)
      ∧ (s.select_bottom_on_load = false →
          (App.updatePosts s posts).select_bottom_on_load = false
          ∧ (App.updatePosts s posts).selected_index =
              (if posts.length ≤ s.selected_index ∧ posts ≠ [] then posts.length - 1
               else s.selected_index)) := by
  intro s posts
  refine ⟨fun h => ?_, fun h => ?_, fun hf hne => ?_, fun hf => ?_⟩
  · simp [App.prevPage, h]
  · simp [App.prevPage, h]
  · constructor <;> simp [App.updatePosts, hf, hne]
  · constructor
    · by_cases hc : posts.length ≤ s.selected_index ∧ posts ≠ [] <;>
        simp [App.updatePosts, hf, hc]
    · by_cases hc : posts.length ≤ s.selected_index ∧ posts ≠ [] <;>
        simp [App.updatePosts, hf, hc]

/-- Witness for C6 at concrete states: from page 1 `prev_page` lands on
page 0 with the flag armed, and the following `update_posts` with two
posts selects index 1 and clears the flag. -/
theorem c6_prev_page_select_bottom_witness :
    App.prevPage { App.new with current_page := 1 } =
      { { App.new with current_page := 1 } with
        current_page := 0, select_bottom_on_load := true }
    ∧ (App.updatePosts { App.new with select_bottom_on_load := true }
          [mkPost "A", mkPost "B"]).selected_index = 1
    ∧ (App.updatePosts { App.new with select_bottom_on_load := true }
          [mkPost "A", mkPost "B"]).select_bottom_on_load = false :=
  ⟨(c6_prev_page_select_bottom { App.new with current_page := 1 } []).1 (by decide),
   ((c6_prev_page_select_bottom { App.new with select_bottom_on_load := true }
        [mkPost "A", mkPost "B"]).2.2.1 rfl (by decide)).1,
   ((c6_prev_page_select_bottom { App.new with select_bottom_on_load := true }
        [mkPost "A", mkPost "B"]).2.2.1 rfl (by decide)).2⟩

lemma mem_setInsert (l : List String) (y x : String) :
    x ∈ setInsert l y ↔ x = y ∨ x ∈ l := by
  unfold setInsert
  split
  · rename_i hy
    have hy' : y ∈ l := by simpa using hy
    constructor
    · exact fun hx => Or.inr hx
    · rintro (rfl | hx)
      · exact hy'
      · exact hx
  · exact List.mem_cons

lemma mem_foldl_newIds (cur seen : List String) :
    ∀ (ps : List Post) (acc : List String) (x : String),
      (x ∈ ps.foldl
          (fun acc p =>
            if ¬ cur.contains p.id ∧ ¬ seen.contains p.id then setInsert acc p.id
            else acc)
          acc)
      ↔ x ∈ acc ∨ ∃ p ∈ ps, p.id = x ∧ x ∉ cur ∧ x ∉ seen
  | [], acc, x => by simp
  | p :: ps, acc, x => by
      simp only [List.foldl_cons]
      rw [mem_foldl_newIds cur seen ps _ x]
      by_cases hc : ¬ cur.contains p.id ∧ ¬ seen.contains p.id
      · have hc1 : p.id ∉ cur := by simpa using hc.1
        have hc2 : p.id ∉ seen := by simpa using hc.2
        rw [if_pos hc, mem_setInsert]
        constructor
        · rintro ((h1 | hx) | ⟨q, hq, hqx, hqc, hqs⟩)
          · exact Or.inr ⟨p, List.mem_cons_self p ps, h1.symm, h1 ▸ hc1, h1 ▸ hc2⟩
          · exact Or.inl hx
          · exact Or.inr ⟨q, List.mem_cons_of_mem p hq, hqx, hqc, hqs⟩
        · rintro (hx | ⟨q, hq, hqx, hqc, hqs⟩)
          · exact Or.inl (Or.inr hx)
          · rcases List.mem_cons.mp hq with rfl | hq'
            · exact Or.inl (Or.inl hqx.symm)
            · exact Or.inr ⟨q, hq', hqx, hqc, hqs⟩
      · rw [if_neg hc]
        constructor
        · rintro (hx | ⟨q, hq, hqx, hqc, hqs⟩)
          · exact Or.inl hx
          · exact Or.inr ⟨q, List.mem_cons_of_mem p hq, hqx, hqc, hqs⟩
        · rintro (hx | ⟨q, hq, hqx, hqc, hqs⟩)
          · exact Or.inl hx
          · rcases List.mem_cons.mp hq with rfl | hq'
            · exact absurd ⟨by rw [hqx]; simpa using hqc,
                by rw [hqx]; simpa using hqs⟩ hc
            · exact Or.inr ⟨q, hq', hqx, hqc, hqs⟩

lemma updatePosts_new_post_ids (s : App) (posts : List Post) :
    (App.updatePosts s posts).new_post_ids =
      posts.foldl
        (fun acc p =>
          if ¬ (s.posts.map Post.id).contains p.id ∧ ¬ s.seen_post_ids.contains p.id then
            setInsert acc p.id
          else acc)
        s.new_post_ids := by
  simp only [App.updatePosts]
  split
  · rfl
  · split <;> rfl

lemma updatePosts_seen_post_ids (s : App) (posts : List Post) :
    (App.updatePosts s posts).seen_post_ids = s.seen_post_ids := by
  simp only [App.updatePosts]
  split
  · rfl
  · split <;> rfl

/-- The spec's new-post-detection example: previously seen ids `{A}`
and previously held posts `{A, B}`. -/
def c5State : App :=
  { App.new with posts := [mkPost "A", mkPost "B"], seen_post_ids := ["A"] }

/-- C5: `update_posts` adds to `new_post_ids` exactly the incoming ids
that are neither among the currently held posts' ids nor in
`seen_post_ids`, removes nothing from either set, and on the spec's
example (seen = `{A}`, held = `{A, B}`, fetch = `{B, C}`, empty new
set) leaves `new_post_ids = {C}`. -/
theorem c5_update_posts_new_ids :
    (∀ (s : App) (incoming : List Post) (x : String),
        (x ∈ (App.updatePosts s incoming).new_post_ids ↔
          x ∈ s.new_post_ids ∨
            ∃ p ∈ incoming, p.id = x ∧ x ∉ s.posts.map Post.id ∧ x ∉ s.seen_post_ids)
        ∧ (App.updatePosts s incoming).seen_post_ids = s.seen_post_ids)
    ∧ (App.updatePosts c5State [mkPost "B", mkPost "C"]).new_post_ids = ["C"] := by
  refine ⟨fun s incoming x => ⟨?_, updatePosts_seen_post_ids s incoming⟩, by decide⟩
  rw [updatePosts_new_post_ids]
  exact mem_foldl_newIds (s.posts.map Post.id) s.seen_post_ids incoming s.new_post_ids x

lemma submoltLe_trans :
    ∀ a b c : SubmoltFull,
      submoltLe a b = true → submoltLe b c = true → submoltLe a c = true := by
  intro a b c
  unfold submoltLe submoltOrder
  cases ha : a.featured_at <;> cases hb : b.featured_at <;> cases hc : c.featured_at <;>
    simp [compare_gt_iff_gt] <;> omega

lemma submoltLe_total :
    ∀ a b : SubmoltFull, (submoltLe a b || submoltLe b a) = true := by
  intro a b
  unfold submoltLe submoltOrder
  cases ha : a.featured_at <;> cases hb : b.featured_at <;>
    simp [compare_gt_iff_gt] <;> omega

lemma submoltLe_iff (a b : SubmoltFull) :
    submoltLe a b = true ↔
      ((isFeatured b = true → isFeatured a = true)
        ∧ (isFeatured a = isFeatured b → b.subscriber_count ≤ a.subscriber_count)) := by
  unfold submoltLe submoltOrder isFeatured
  cases ha : a.featured_at <;> cases hb : b.featured_at <;>
    simp [compare_gt_iff_gt]

/-- C10: the `SubmoltsLoaded` sort stores a permutation of the incoming
submolts in which every featured entry (featured_at present) precedes
every non-featured one and, within each of the two groups, subscriber
counts are non-increasing; on the spec's example
`[{subs 10, not featured}, {subs 5, featured}, {subs 20, not featured}]`
the result is `[{subs 5, featured}, {subs 20}, {subs 10}]`. -/
theorem c10_submolts_sorted :
    (∀ l : List SubmoltFull,
        (sortSubmolts l).Perm l
        ∧ (sortSubmolts l).Pairwise (fun a b =>
            (isFeatured b = true → isFeatured a = true)
            ∧ (isFeatured a = isFeatured b → b.subscriber_count ≤ a.subscriber_count)))
    ∧ sortSubmolts
        [mkSubmolt "s10" 10 none, mkSubmolt "s5" 5 (some "t"), mkSubmolt "s20" 20 none]
      = [mkSubmolt "s5" 5 (some "t"), mkSubmolt "s20" 20 none, mkSubmolt "s10" 10 none] := by
  constructor
  · intro l
    refine ⟨List.mergeSort_perm l submoltLe, ?_⟩
    have hp := @List.sorted_mergeSort SubmoltFull submoltLe submoltLe_trans submoltLe_total l
    exact hp.imp fun h => (submoltLe_iff _ _).mp h
  · simp +decide [sortSubmolts, List.mergeSort, List.merge, submoltLe, submoltOrder, mkSubmolt]

/-- One keyboard selection move. -/
inductive Move where
  | next
  | prev

/-- Apply one move via App::select_next or App::select_previous. -/
def applyMove (m : Move) (s : App) : App :=
  match m with
  | Move.next => App.selectNext s
  | Move.prev => App.selectPrevious s

/-- Apply a sequence of moves in order. -/
def applyMoves (ms : List Move) (s : App) : App :=
  match ms with
  | [] => s
  | m :: rest => applyMoves rest (applyMove m s)

/-- The active screen's selection cursor and its collection length:
Feed, PostDetail (length of the visible comment id list), the four
list screens, the Submolts grid, and the two-entry Settings list.
Setup and Stats have no selection. -/
def cursorLen (s : App) : Option (Nat × Nat) :=
  match s.screen with
  | Screen.Setup => none
  | Screen.Feed => some (s.selected_index, s.posts.length)
  | Screen.PostDetail =>
      some (s.selected_comment_index, (App.getVisibleCommentIds s).length)
  | Screen.Stats => none
  | Screen.Leaderboard => some (s.leaderboard_selected, s.leaderboard.length)
  | Screen.TopPairings => some (s.top_pairings_selected, s.top_pairings.length)
  | Screen.RecentAgents => some (s.recent_selected, s.recent_agents.length)
  | Screen.Submolts => some (s.submolts_selected, s.submolts.length)
  | Screen.Settings => some (s.settings_selected, 2)
  | Screen.AgentProfile => some (s.agent_posts_selected, s.agent_posts.length)

/-- The clamping property for a cursor/length pair: the cursor is in
`[0, len)` when the collection is non-empty and pinned at 0 when it is
empty. -/
def cursorOk : Option (Nat × Nat) → Prop
  | none => True
  | some (c, l) => (l ≠ 0 → c < l) ∧ (l = 0 → c = 0)

instance instDecidableCursorOk : (o : Option (Nat × Nat)) → Decidable (cursorOk o)
  | none => Decidable.isTrue trivial
  | some (c, l) =>
      inferInstanceAs (Decidable ((l ≠ 0 → c < l) ∧ (l = 0 → c = 0)))

/-- The per-screen cursor invariant of the claim. -/
abbrev CursorInv (s : App) : Prop := cursorOk (cursorLen s)

lemma cursorOk_selectNext (s : App) (h : CursorInv s) : CursorInv (App.selectNext s) := by
  cases hs : s.screen
  case Setup =>
    simp [CursorInv, App.selectNext, cursorOk, cursorLen, hs]
  case Stats =>
    simp [CursorInv, App.selectNext, cursorOk, cursorLen, hs]
  case Feed =>
    simp only [CursorInv, cursorOk, cursorLen, hs] at h
    simp only [CursorInv, App.selectNext, hs]
    split
    · rename_i hcond
      have hpos : 0 < s.posts.length := List.length_pos.mpr hcond.1
      have hlt := hcond.2
      simp only [cursorOk, cursorLen, hs]
      omega
    · simp only [cursorOk, cursorLen, hs]
      exact h
  case PostDetail =>
    simp only [CursorInv, cursorOk, cursorLen, hs] at h
    simp only [CursorInv, App.selectNext, hs]
    split
    · rename_i hcond
      simp only [cursorOk, cursorLen, hs, App.getVisibleCommentIds] at hcond ⊢
      omega
    · simp only [cursorOk, cursorLen, hs]
      exact h
  case Leaderboard =>
    simp only [CursorInv, cursorOk, cursorLen, hs] at h
    simp only [CursorInv, App.selectNext, hs]
    split
    · rename_i hcond
      have hpos : 0 < s.leaderboard.length := List.length_pos.mpr hcond.1
      have hlt := hcond.2
      simp only [cursorOk, cursorLen, hs]
      omega
    · simp only [cursorOk, cursorLen, hs]
      exact h
  case TopPairings =>
    simp only [CursorInv, cursorOk, cursorLen, hs] at h
    simp only [CursorInv, App.selectNext, hs]
    split
    · rename_i hcond
      have hpos : 0 < s.top_pairings.length := List.length_pos.mpr hcond.1
      have hlt := hcond.2
      simp only [cursorOk, cursorLen, hs]
      omega
    · simp only [cursorOk, cursorLen, hs]
      exact h
  case RecentAgents =>
    simp only [CursorInv, cursorOk, cursorLen, hs] at h
    simp only [CursorInv, App.selectNext, hs]
    split
    · rename_i hcond
      have hpos : 0 < s.recent_agents.length := List.length_pos.mpr hcond.1
      have hlt := hcond.2
      simp only [cursorOk, cursorLen, hs]
      omega
    · simp only [cursorOk, cursorLen, hs]
      exact h
  case Submolts =>
    simp only [CursorInv, cursorOk, cursorLen, hs] at h
    simp only [CursorInv, App.selectNext, hs]
    split
    · rename_i hcond
      have hpos : 0 < s.submolts.length := List.length_pos.mpr hcond.1
      have hlt := hcond.2
      simp only [cursorOk, cursorLen, hs]
      omega
    · simp only [cursorOk, cursorLen, hs]
      exact h
  case Settings =>
    simp only [CursorInv, cursorOk, cursorLen, hs] at h
    simp only [CursorInv, App.selectNext, hs]
    split
    · rename_i hcond
      simp only [cursorOk, cursorLen, hs]
      omega
    · simp only [cursorOk, cursorLen, hs]
      exact h
  case AgentProfile =>
    simp only [CursorInv, cursorOk, cursorLen, hs] at h
    simp only [CursorInv, App.selectNext, hs]
    split
    · rename_i hcond
      have hpos : 0 < s.agent_posts.length := List.length_pos.mpr hcond.1
      have hlt := hcond.2
      simp only [cursorOk, cursorLen, hs]
      omega
    · simp only [cursorOk, cursorLen, hs]
      exact h

lemma cursorOk_selectPrevious (s : App) (h : CursorInv s) :
    CursorInv (App.selectPrevious s) := by
  cases hs : s.screen
  case Setup =>
    simp [CursorInv, App.selectPrevious, cursorOk, cursorLen, hs]
  case Stats =>
    simp [CursorInv, App.selectPrevious, cursorOk, cursorLen, hs]
  case Feed =>
    simp only [CursorInv, cursorOk, cursorLen, hs] at h
    simp only [CursorInv, App.selectPrevious, hs]
    split
    · rename_i hcond
      simp only [cursorOk, cursorLen, hs]
      omega
    · simp only [cursorOk, cursorLen, hs]
      exact h
  case PostDetail =>
    simp only [CursorInv, cursorOk, cursorLen, hs] at h
    simp only [CursorInv, App.selectPrevious, hs]
    split
    · rename_i hcond
      simp only [cursorOk, cursorLen, hs, App.getVisibleCommentIds] at h ⊢
      omega
    · simp only [cursorOk, cursorLen, hs]
      exact h
  case Leaderboard =>
    simp only [CursorInv, cursorOk, cursorLen, hs] at h
    simp only [CursorInv, App.selectPrevious, hs]
    split
    · rename_i hcond
      simp only [cursorOk, cursorLen, hs]
      omega
    · simp only [cursorOk, cursorLen, hs]
      exact h
  case TopPairings =>
    simp only [CursorInv, cursorOk, cursorLen, hs] at h
    simp only [CursorInv, App.selectPrevious, hs]
    split
    · rename_i hcond
      simp only [cursorOk, cursorLen, hs]
      omega
    · simp only [cursorOk, cursorLen, hs]
      exact h
  case RecentAgents =>
    simp only [CursorInv, cursorOk, cursorLen, hs] at h
    simp only [CursorInv, App.selectPrevious, hs]
    split
    · rename_i hcond
      simp only [cursorOk, cursorLen, hs]
      omega
    · simp only [cursorOk, cursorLen, hs]
      exact h
  case Submolts =>
    simp only [CursorInv, cursorOk, cursorLen, hs] at h
    simp only [CursorInv, App.selectPrevious, hs]
    split
    · rename_i hcond
      simp only [cursorOk, cursorLen, hs]
      omega
    · simp only [cursorOk, cursorLen, hs]
      exact h
  case Settings =>
    simp only [CursorInv, cursorOk, cursorLen, hs] at h
    simp only [CursorInv, App.selectPrevious, hs]
    split
    · rename_i hcond
      simp only [cursorOk, cursorLen, hs]
      omega
    · simp only [cursorOk, cursorLen, hs]
      exact h
  case AgentProfile =>
    simp only [CursorInv, cursorOk, cursorLen, hs] at h
    simp only [CursorInv, App.selectPrevious, hs]
    split
    · rename_i hcond
      simp only [cursorOk, cursorLen, hs]
      omega
    · simp only [cursorOk, cursorLen, hs]
      exact h

lemma cursorOk_applyMoves :
    ∀ (ms : List Move) (s : App), CursorInv s → CursorInv (applyMoves ms s)
  | [], _, h => h
  | Move.next :: rest, s, h =>
      cursorOk_applyMoves rest _ (cursorOk_selectNext s h)
  | Move.prev :: rest, s, h =>
      cursorOk_applyMoves rest _ (cursorOk_selectPrevious s h)

lemma select_noop_of_empty (s : App) (h : CursorInv s) (c : Nat)
    (hl : cursorLen s = some (c, 0)) :
    App.selectNext s = s ∧ App.selectPrevious s = s := by
  cases hs : s.screen
  case Setup => simp [cursorLen, hs] at hl
  case Stats => simp [cursorLen, hs] at hl
  case Feed =>
    simp only [cursorLen, hs, Option.some.injEq, Prod.mk.injEq] at hl
    simp only [CursorInv, cursorOk, cursorLen, hs] at h
    have hz : s.selected_index = 0 := h.2 hl.2
    have hnil : s.posts = [] := List.length_eq_zero.mp hl.2
    constructor
    · simp [App.selectNext, hs, hnil]
    · simp [App.selectPrevious, hs, hz]
  case PostDetail =>
    simp only [cursorLen, hs, Option.some.injEq, Prod.mk.injEq] at hl
    simp only [CursorInv, cursorOk, cursorLen, hs] at h
    have hz : s.selected_comment_index = 0 := h.2 hl.2
    constructor
    · simp [App.selectNext, hs, hl.2]
    · simp [App.selectPrevious, hs, hz]
  case Leaderboard =>
    simp only [cursorLen, hs, Option.some.injEq, Prod.mk.injEq] at hl
    simp only [CursorInv, cursorOk, cursorLen, hs] at h
    have hz : s.leaderboard_selected = 0 := h.2 hl.2
    have hnil : s.leaderboard = [] := List.length_eq_zero.mp hl.2
    constructor
    · simp [App.selectNext, hs, hnil]
    · simp [App.selectPrevious, hs, hz]
  case TopPairings =>
    simp only [cursorLen, hs, Option.some.injEq, Prod.mk.injEq] at hl
    simp only [CursorInv, cursorOk, cursorLen, hs] at h
    have hz : s.top_pairings_selected = 0 := h.2 hl.2
    have hnil : s.top_pairings = [] := List.length_eq_zero.mp hl.2
    constructor
    · simp [App.selectNext, hs, hnil]
    · simp [App.selectPrevious, hs, hz]
  case RecentAgents =>
    simp only [cursorLen, hs, Option.some.injEq, Prod.mk.injEq] at hl
    simp only [CursorInv, cursorOk, cursorLen, hs] at h
    have hz : s.recent_selected = 0 := h.2 hl.2
    have hnil : s.recent_agents = [] := List.length_eq_zero.mp hl.2
    constructor
    · simp [App.selectNext, hs, hnil]
    · simp [App.selectPrevious, hs, hz]
  case Submolts =>
    simp only [cursorLen, hs, Option.some.injEq, Prod.mk.injEq] at hl
    simp only [CursorInv, cursorOk, cursorLen, hs] at h
    have hz : s.submolts_selected = 0 := h.2 hl.2
    have hnil : s.submolts = [] := List.length_eq_zero.mp hl.2
    constructor
    · simp [App.selectNext, hs, hnil]
    · simp [App.selectPrevious, hs, hz]
  case Settings =>
    simp only [cursorLen, hs, Option.some.injEq, Prod.mk.injEq] at hl
    omega
  case AgentProfile =>
    simp only [cursorLen, hs, Option.some.injEq, Prod.mk.injEq] at hl
    simp only [CursorInv, cursorOk, cursorLen, hs] at h
    have hz : s.agent_posts_selected = 0 := h.2 hl.2
    have hnil : s.agent_posts = [] := List.length_eq_zero.mp hl.2
    constructor
    · simp [App.selectNext, hs, hnil]
    · simp [App.selectPrevious, hs, hz]

/-- C1: from any state whose active-screen cursor satisfies the
clamping invariant — in `[0, len)` when the collection is non-empty
and 0 when it is empty, with `len` the visible comment count on
PostDetail — every sequence of `select_next`/`select_previous` calls
preserves the invariant, and both calls leave the state entirely
unchanged when the active collection is empty. -/
theorem c1_cursor_clamping :
    ∀ s : App, CursorInv s →
      (∀ ms : List Move, CursorInv (applyMoves ms s))
      ∧ (∀ c, cursorLen s = some (c, 0) →
          App.selectNext s = s ∧ App.selectPrevious s = s) :=
  fun s h =>
    ⟨fun ms => cursorOk_applyMoves ms s h,
     fun c hc => select_noop_of_empty s h c hc⟩

/-- A PostDetail state with three visible comments and the cursor at
the top. -/
def c1State : App :=
  { App.new with screen := Screen.PostDetail, comments := [exC_A, exC_B] }

/-- Witness for C1 at concrete states: three moves from a PostDetail
state with three visible comments keep the invariant, and on the empty
initial feed both calls are no-ops. -/
theorem c1_cursor_clamping_witness :
    CursorInv (applyMoves [Move.next, Move.next, Move.prev] c1State)
    ∧ (App.selectNext App.new = App.new ∧ App.selectPrevious App.new = App.new) :=
  ⟨(c1_cursor_clamping c1State (by decide)).1 [Move.next, Move.next, Move.prev],
   (c1_cursor_clamping App.new (by decide)).2 0 rfl⟩

end Moltbook
